import Mathlib

/-!
Verification development for the SOUR bioreactor monitoring repository.

Numbers that the TypeScript code holds in JavaScript `number` values are
embedded as rationals (ℚ); the runtime library function `Math.sin` is taken
as a parameter `msin : ℚ → ℚ`, about which the only fact ever assumed is the
range bound `-1 ≤ msin x ≤ 1`. The wall clock reading `Date.now()` is passed
explicitly as a parameter `now : ℚ`, and the ISO rendering
`new Date().toISOString()` is embedded as the instant itself.
-/

/-- Embeds the TypeScript interface `RealTimeMetrics` of `types/system.ts`:
the raw sensor frame pushed over the transport. Note that it carries no
timestamp field. -/
structure RealTimeMetrics where
  LB_MFC_1_SP : ℚ
  LB_MFC_1_PV : ℚ
  Reactor_1_DO_Value_PPM : ℚ
  Reactor_1_DO_T_Value : ℚ
  Reactor_1_PH_Value : ℚ
  Reactor_1_PH_T_Value : ℚ
deriving DecidableEq

/-- Embeds the TypeScript interface `Metrics` of `types/metrics.ts`:
the derived metrics record. The `timestamp` field, a string in the source
(`new Date().toISOString()`), is embedded as the rational clock instant the
string renders. -/
structure Metrics where
  drop_rate : ℚ
  recovery_time : ℚ
  our : ℚ
  sour : ℚ
  do_saturation : ℚ
  ph : ℚ
  temperature : ℚ
  timestamp : ℚ
deriving DecidableEq

/-- Embeds `calculateMetrics` of `hooks/useWebSocket.ts`:

```
const calculateMetrics = (data: RealTimeMetrics): Metrics => {
  return {
    do_saturation: (data.Reactor_1_DO_Value_PPM / 1000) * 100,
    drop_rate: data.LB_MFC_1_PV,
    recovery_time: Math.abs(10 * Math.sin(Date.now() / 5000)),
    our: Math.abs(0.5 + 0.1 * Math.sin(Date.now() / 7000)),
    sour: Math.abs(0.2 + 0.05 * Math.sin(Date.now() / 9000)),
    ph: data.Reactor_1_PH_Value,
    temperature: data.Reactor_1_DO_T_Value,
    timestamp: new Date().toISOString()
  };
};
```

`msin` stands for the runtime function `Math.sin` and `now` for the value of
`Date.now()` during the call. -/
def calculateMetrics (msin : ℚ → ℚ) (data : RealTimeMetrics) (now : ℚ) : Metrics :=
  { do_saturation := (data.Reactor_1_DO_Value_PPM / 1000) * 100
    drop_rate := data.LB_MFC_1_PV
    recovery_time := |10 * msin (now / 5000)|
    our := |1/2 + 1/10 * msin (now / 7000)|
    sour := |1/5 + 1/20 * msin (now / 9000)|
    ph := data.Reactor_1_PH_Value
    temperature := data.Reactor_1_DO_T_Value
    timestamp := now }

/-- A concrete raw frame whose DO concentration reading is 2000 PPM. -/
def frameDO2000 : RealTimeMetrics :=
  { LB_MFC_1_SP := 1/2
    LB_MFC_1_PV := 1/2
    Reactor_1_DO_Value_PPM := 2000
    Reactor_1_DO_T_Value := 37
    Reactor_1_PH_Value := 7
    Reactor_1_PH_T_Value := 37 }

/-- A concrete raw frame with nominal sensor readings (DO 800 PPM). -/
def frameDO800 : RealTimeMetrics :=
  { LB_MFC_1_SP := 1/2
    LB_MFC_1_PV := 12/25
    Reactor_1_DO_Value_PPM := 800
    Reactor_1_DO_T_Value := 37
    Reactor_1_PH_Value := 7
    Reactor_1_PH_T_Value := 37 }

/-- C1: the claim states that `do_saturation` is clamped to the interval
[0,100] for every input DO concentration. The code computes
`(Reactor_1_DO_Value_PPM / 1000) * 100` with no clamping: at an input DO
reading of 2000 PPM the emitted `do_saturation` is 200, outside [0,100]. -/
theorem do_saturation_not_clamped :
    (calculateMetrics (fun _ => 0) frameDO2000 0).do_saturation = 200 ∧
    ¬ (calculateMetrics (fun _ => 0) frameDO2000 0).do_saturation ≤ 100 := by
  constructor <;> norm_num [calculateMetrics, frameDO2000]

/-- C1 (amended): `do_saturation` equals the input DO concentration divided
by 1000 and scaled to percent, passed through unclamped; it lies in [0,100]
exactly when the input DO reading lies in [0,1000] PPM. -/
theorem do_saturation_range_iff (msin : ℚ → ℚ) (data : RealTimeMetrics) (now : ℚ) :
    (0 ≤ (calculateMetrics msin data now).do_saturation ∧
      (calculateMetrics msin data now).do_saturation ≤ 100) ↔
    (0 ≤ data.Reactor_1_DO_Value_PPM ∧ data.Reactor_1_DO_Value_PPM ≤ 1000) := by
  simp only [calculateMetrics]
  constructor <;> rintro ⟨h1, h2⟩ <;> constructor <;> linarith

/-- C8: the claim states the emitted timestamp equals the capture timestamp
of the triggering raw frame. The code writes `new Date().toISOString()`, the
processing-time clock: with the triggering frame held fixed, two different
processing instants yield two different timestamps, so the timestamp is not
determined by the frame (which carries no capture timestamp field at all). -/
theorem timestamp_not_frame_capture_time :
    (calculateMetrics (fun _ => 0) frameDO800 0).timestamp ≠
    (calculateMetrics (fun _ => 0) frameDO800 1).timestamp := by
  norm_num [calculateMetrics]

/-- C8 (amended): the `timestamp` field of the emitted metrics record equals
the processing-time clock reading (`Date.now()` rendered by
`new Date().toISOString()`) at the moment `calculateMetrics` runs, for every
input frame. -/
theorem timestamp_is_processing_clock (msin : ℚ → ℚ) (data : RealTimeMetrics) (now : ℚ) :
    (calculateMetrics msin data now).timestamp = now := rfl

/-- C10: the `recovery_time`, `our` and `sour` fields do not depend on the
input raw frame — evaluating `calculateMetrics` on any two frames at the
same instant gives identical values for the three fields, which are
functions of the wall clock alone; moreover, since `Math.sin` ranges over
[-1,1], `recovery_time` always lies in [0,10] and `our` and `sour` are
always non-negative. -/
theorem simulated_fields_frame_independent_and_bounded
    (msin : ℚ → ℚ) (d1 d2 : RealTimeMetrics) (now : ℚ)
    (hb : ∀ x, -1 ≤ msin x ∧ msin x ≤ 1) :
    (calculateMetrics msin d1 now).recovery_time = (calculateMetrics msin d2 now).recovery_time ∧
    (calculateMetrics msin d1 now).our = (calculateMetrics msin d2 now).our ∧
    (calculateMetrics msin d1 now).sour = (calculateMetrics msin d2 now).sour ∧
    0 ≤ (calculateMetrics msin d1 now).recovery_time ∧
    (calculateMetrics msin d1 now).recovery_time ≤ 10 ∧
    0 ≤ (calculateMetrics msin d1 now).our ∧
    0 ≤ (calculateMetrics msin d1 now).sour := by
  refine ⟨rfl, rfl, rfl, abs_nonneg _, ?_, abs_nonneg _, abs_nonneg _⟩
  have h := hb (now / 5000)
  simp only [calculateMetrics]
  rw [abs_le]
  constructor <;> linarith

/-- C10 witness: the bounds evaluated at a concrete sine stand-in, two
concrete frames and a concrete instant. -/
theorem simulated_fields_bounded_witness :
    (calculateMetrics (fun _ => 0) frameDO800 0).recovery_time =
      (calculateMetrics (fun _ => 0) frameDO2000 0).recovery_time ∧
    0 ≤ (calculateMetrics (fun _ => 0) frameDO800 0).recovery_time ∧
    (calculateMetrics (fun _ => 0) frameDO800 0).recovery_time ≤ 10 :=
  have h := simulated_fields_frame_independent_and_bounded (fun _ => 0)
    frameDO800 frameDO2000 0 (fun _ => by norm_num)
  ⟨h.1, h.2.2.2.1, h.2.2.2.2.1⟩

/-!
Transport Manager: embedding of the class `WebSocketManager` of
`utils/websocket.ts`. The browser `WebSocket` object is represented by its
`readyState`; `this.ws` is `Option ReadyState` (`none` when the field is
null). Two instrumentation counters record facts about resources the code
itself never reads back: `pendingRetries` counts reconnect timers created by
`setTimeout` in `handleDisconnect` and not yet fired (the code never calls
`clearTimeout`, so nothing else can remove them), and `orphanedSockets`
counts sockets that `connect` overwrote in `this.ws` while they were not yet
CLOSED (the code reassigns `this.ws` without calling `close()` on the old
socket). `callbacks` is the subscriber set, with subscribers named by
numbers. -/
inductive ReadyState
  | CONNECTING
  | OPEN
  | CLOSING
  | CLOSED
deriving DecidableEq

/-- State of one `WebSocketManager` instance. -/
structure WebSocketManager where
  ws : Option ReadyState
  reconnectAttempts : Nat
  pendingRetries : Nat
  orphanedSockets : Nat
  callbacks : List Nat
deriving DecidableEq

/-- Field initializer values of the class: `ws = null`,
`reconnectAttempts = 0`, empty callback set, no timers pending. -/
def initialManager : WebSocketManager :=
  { ws := none, reconnectAttempts := 0, pendingRetries := 0
    orphanedSockets := 0, callbacks := [] }

/-- The source constant `maxReconnectAttempts = 5`. -/
def maxReconnectAttempts : Nat := 5

/-- A socket abandoned by overwriting `this.ws` counts as orphaned when it
was not yet CLOSED. -/
def abandonedBy : Option ReadyState → Nat
  | some ReadyState.CONNECTING => 1
  | some ReadyState.OPEN => 1
  | some ReadyState.CLOSING => 1
  | _ => 0

/-- Embeds `connect(config)`: `if (this.ws?.readyState === WebSocket.OPEN)
return;` followed by `this.ws = new WebSocket(wsEndpoint)` — a no-op only
when the current socket is OPEN; otherwise a fresh socket in CONNECTING
state replaces whatever `this.ws` held, without closing it. -/
def WebSocketManager.connect (s : WebSocketManager) : WebSocketManager :=
  if s.ws = some ReadyState.OPEN then s
  else { s with ws := some ReadyState.CONNECTING
                orphanedSockets := s.orphanedSockets + abandonedBy s.ws }

/-- Embeds the `onopen` handler: logs, then `this.reconnectAttempts = 0`;
the socket is now OPEN. -/
def onOpen (s : WebSocketManager) : WebSocketManager :=
  { s with ws := some ReadyState.OPEN, reconnectAttempts := 0 }

/-- Embeds `handleDisconnect()`: when `reconnectAttempts <
maxReconnectAttempts`, increment the counter and schedule a reconnect timer
with `setTimeout`; otherwise do nothing. -/
def handleDisconnect (s : WebSocketManager) : WebSocketManager :=
  if s.reconnectAttempts < maxReconnectAttempts then
    { s with reconnectAttempts := s.reconnectAttempts + 1
             pendingRetries := s.pendingRetries + 1 }
  else s

/-- A failed connection attempt: the socket transitions to CLOSED and the
`onclose` (or `onerror`) handler runs `handleDisconnect()`. -/
def connectFailure (s : WebSocketManager) : WebSocketManager :=
  handleDisconnect { s with ws := some ReadyState.CLOSED }

/-- A pending reconnect timer fires: the timer is consumed and its body
calls `this.connect(...)`. -/
def retryFire (s : WebSocketManager) : WebSocketManager :=
  WebSocketManager.connect { s with pendingRetries := s.pendingRetries - 1 }

/-- Embeds `disconnect()`: `if (this.ws) { this.ws.close(); this.ws = null; }`.
The socket is closed and released; no timer is touched. -/
def WebSocketManager.disconnect (s : WebSocketManager) : WebSocketManager :=
  match s.ws with
  | some _ => { s with ws := none }
  | none => s

/-- Number of underlying sockets created by this manager and not yet
closed: the socket currently referenced by `this.ws` (when not CLOSED) plus
every orphaned one. -/
def activeConnections (s : WebSocketManager) : Nat :=
  abandonedBy s.ws + s.orphanedSockets

/-- The state after an initial `connect()` followed by n consecutive
connect failures, each later failure preceded by the firing of the retry
timer that the previous failure scheduled. -/
def afterFailures : Nat → WebSocketManager
  | 0 => WebSocketManager.connect initialManager
  | 1 => connectFailure (afterFailures 0)
  | n + 2 => connectFailure (retryFire (afterFailures (n + 1)))

/-- Embeds `notifyCallbacks(data)`: `this.callbacks.forEach(callback =>
callback(data))` — the list of invocations it performs. -/
def notifyCallbacks (s : WebSocketManager) (d : RealTimeMetrics) : List (Nat × RealTimeMetrics) :=
  s.callbacks.map (fun c => (c, d))

/-- Embeds the `onmessage` handler: `try { const data = JSON.parse(event.data);
this.notifyCallbacks(data); } catch (error) { console.error(...) }`. The
runtime JSON parser is the parameter `parse`; the result is the manager
state afterwards and the list of callback invocations performed. -/
def onMessage (parse : String → Option RealTimeMetrics)
    (s : WebSocketManager) (payload : String) :
    WebSocketManager × List (Nat × RealTimeMetrics) :=
  match parse payload with
  | none => (s, [])
  | some d => (s, notifyCallbacks s d)

/-- C2: the claim states that after 5 consecutive connect failures (the
configured maximum) no further automatic retry is scheduled and that a
subsequent `connect()` call resets the attempt counter to 0. In the code,
the fifth failure still schedules a retry timer (one timer is pending right
after it), and `connect()` never touches `reconnectAttempts` — the counter
is reset only by the `onopen` handler of a successful attempt. -/
theorem fifth_failure_still_schedules_retry :
    (afterFailures 5).pendingRetries = 1 ∧
    (WebSocketManager.connect (afterFailures 5)).reconnectAttempts ≠ 0 := by
  constructor <;> decide

/-- C2 (amended): retries stop only after 6 consecutive failures — the
initial attempt plus the 5 scheduled retries. At that point the socket is
CLOSED with no retry timer pending, and a further failure changes nothing.
The attempt counter is never reset by calling `connect()` (it preserves
`reconnectAttempts` from every state); it is reset to 0 exactly by the
`onopen` handler of a successful attempt. -/
theorem retries_exhausted_after_six_failures :
    (afterFailures 6).ws = some ReadyState.CLOSED ∧
    (afterFailures 6).pendingRetries = 0 ∧
    connectFailure (afterFailures 6) = afterFailures 6 ∧
    (∀ s : WebSocketManager,
      (WebSocketManager.connect s).reconnectAttempts = s.reconnectAttempts) ∧
    (∀ s : WebSocketManager, (onOpen s).reconnectAttempts = 0) := by
  refine ⟨by decide, by decide, by decide, ?_, fun s => rfl⟩
  intro s
  unfold WebSocketManager.connect
  split <;> rfl

/-- C3: the claim states that `connect` while Connecting or Connected is a
no-op and never creates a second underlying connection. Calling `connect`
on a manager whose socket is still CONNECTING is not a no-op: it replaces
the socket with a fresh one without closing the old, leaving two sockets of
this manager not closed at once. -/
theorem connect_while_connecting_not_noop :
    WebSocketManager.connect (WebSocketManager.connect initialManager) ≠
      WebSocketManager.connect initialManager ∧
    activeConnections (WebSocketManager.connect (WebSocketManager.connect initialManager)) = 2 := by
  constructor <;> decide

/-- C3 (amended): `connect` is a no-op only while the socket is OPEN
(Connected); called while the socket is CONNECTING it abandons the in-flight
socket without closing it and opens a fresh one, increasing the number of
not-yet-closed underlying connections owned by the manager by one. -/
theorem connect_noop_only_when_open (s : WebSocketManager) :
    (s.ws = some ReadyState.OPEN → WebSocketManager.connect s = s) ∧
    (s.ws = some ReadyState.CONNECTING →
      (WebSocketManager.connect s).orphanedSockets = s.orphanedSockets + 1 ∧
      activeConnections (WebSocketManager.connect s) = activeConnections s + 1) := by
  constructor
  · intro h
    unfold WebSocketManager.connect
    simp [h]
  · intro h
    unfold WebSocketManager.connect activeConnections
    simp [h, abandonedBy]
    omega

/-- C3 witness: both branches of the amended statement applied at concrete
manager states, one with an OPEN socket and one with a CONNECTING socket. -/
theorem connect_noop_only_when_open_witness :
    WebSocketManager.connect (onOpen initialManager) = onOpen initialManager ∧
    (WebSocketManager.connect (WebSocketManager.connect initialManager)).orphanedSockets =
      (WebSocketManager.connect initialManager).orphanedSockets + 1 :=
  ⟨(connect_noop_only_when_open (onOpen initialManager)).1 rfl,
   ((connect_noop_only_when_open (WebSocketManager.connect initialManager)).2 (by decide)).1⟩

/-- C4: the claim states that `disconnect()` cancels any pending reconnect
timer, so a retry scheduled before the disconnect never fires afterwards.
In the code `disconnect()` only closes and nulls the socket; after one
failure and a `disconnect()`, the retry timer is still pending, and when it
fires it puts the manager back into a connection attempt. -/
theorem pending_retry_survives_disconnect :
    (WebSocketManager.disconnect (afterFailures 1)).pendingRetries = 1 ∧
    (retryFire (WebSocketManager.disconnect (afterFailures 1))).ws =
      some ReadyState.CONNECTING := by
  constructor <;> decide

/-- C4 (amended): `disconnect()` releases the underlying socket but cancels
no reconnect timer: the pending-timer count is unchanged from every state,
and any timer pending at the disconnect still fires and starts a new
connection attempt without any explicit `connect()` call. -/
theorem disconnect_cancels_no_timer (s : WebSocketManager) :
    (WebSocketManager.disconnect s).pendingRetries = s.pendingRetries ∧
    (0 < s.pendingRetries →
      (retryFire (WebSocketManager.disconnect s)).ws = some ReadyState.CONNECTING) := by
  constructor
  · unfold WebSocketManager.disconnect
    cases s.ws <;> rfl
  · intro _
    unfold WebSocketManager.disconnect retryFire WebSocketManager.connect
    cases h : s.ws <;> simp [h]

/-- C4 witness: the amended statement applied to the concrete state reached
by one connect failure, which has one retry timer pending. -/
theorem disconnect_cancels_no_timer_witness :
    (WebSocketManager.disconnect (afterFailures 1)).pendingRetries =
      (afterFailures 1).pendingRetries ∧
    (retryFire (WebSocketManager.disconnect (afterFailures 1))).ws =
      some ReadyState.CONNECTING :=
  ⟨(disconnect_cancels_no_timer (afterFailures 1)).1,
   (disconnect_cancels_no_timer (afterFailures 1)).2 (by decide)⟩

/-- C9: a payload that the JSON parser rejects is discarded after logging —
the manager state (socket and callback set included) is left exactly as it
was and no subscriber callback is invoked for it — and a later well-formed
payload is still dispatched to every subscriber. -/
theorem malformed_payload_discarded (parse : String → Option RealTimeMetrics)
    (s : WebSocketManager) (payload : String) (h : parse payload = none) :
    (onMessage parse s payload).1 = s ∧
    (onMessage parse s payload).2 = [] ∧
    (∀ p2 d, parse p2 = some d →
      (onMessage parse (onMessage parse s payload).1 p2).2 =
        s.callbacks.map (fun c => (c, d))) := by
  refine ⟨?_, ?_, ?_⟩
  · simp [onMessage, h]
  · simp [onMessage, h]
  · intro p2 d h2
    simp [onMessage, h, h2, notifyCallbacks]

/-- A concrete parser recognizing exactly the payload string `frame`. -/
def parseDemo : String → Option RealTimeMetrics :=
  fun p => if p = "frame" then some frameDO800 else none

/-- A concrete connected manager with two subscribers. -/
def demoManager : WebSocketManager :=
  { ws := some ReadyState.OPEN, reconnectAttempts := 0, pendingRetries := 0
    orphanedSockets := 0, callbacks := [0, 1] }

/-- C9 witness: the discard behaviour evaluated at a concrete manager, a
concrete rejected payload and a concrete parser. -/
theorem malformed_payload_discarded_witness :
    (onMessage parseDemo demoManager "bad").1 = demoManager ∧
    (onMessage parseDemo demoManager "bad").2 = [] :=
  have h := malformed_payload_discarded parseDemo demoManager "bad" (by simp [parseDemo])
  ⟨h.1, h.2.1⟩

/-!
Persistence Layer: `DatabaseConnection` of `src/data/database.py`. The
Python source is present in the repository only as a compiled artifact, with
its bytecode damaged by text transcoding; the SQL statement texts, the
docstrings and the error-message strings are recovered verbatim from it,
and the control flow around them is modelled from the spec where noted.
-/

/-- A SQL statement exactly as handed to the database engine: the statement
text together with the bound parameters passed alongside it. -/
structure SqlQuery where
  text : String
  params : List (String × String)
deriving DecidableEq

/-- Statement text of `get_historical_data`, a string constant recovered
from the compiled artifact (whitespace flattened). The caller-supplied
bounds appear only as the named placeholders `:start_time` and
`:end_time`. -/
def historicalDataQueryText : String :=
  "SELECT timestamp, do_value, ph_value, temperature, agitation, reactor_weight, feed_bottle_weight FROM sensor_data WHERE timestamp BETWEEN :start_time AND :end_time ORDER BY timestamp ASC"

/-- Embeds the query construction of `DatabaseConnection.get_historical_data`:
the constant statement text is paired with a parameter binding carrying the
two caller-supplied timestamps; they are never spliced into the text. -/
def get_historical_data (start_time end_time : String) : SqlQuery :=
  { text := historicalDataQueryText
    params := [("start_time", start_time), ("end_time", end_time)] }

/-- Connection handle state of `DatabaseConnection` after initialization. -/
structure DatabaseConnection where
  is_connected : Bool
deriving DecidableEq

/-- Modelled from the spec: the control flow of `DatabaseConnection.__init__`
(source only as a damaged compiled artifact; its recovered docstring reads
`required (bool): If True, raises exceptions on connection failure. If
False, continues with limited functionality`). With a reachable upstream the
handle connects; with an unreachable upstream it raises when `required` is
true and otherwise logs and continues without the upstream store. -/
def DatabaseConnection.init (required : Bool) (upstreamReachable : Bool) :
    Except String DatabaseConnection :=
  if upstreamReachable then Except.ok { is_connected := true }
  else if required then Except.error "Failed to connect to database"
  else Except.ok { is_connected := false }

/-- Modelled from the spec: `DatabaseConnection.get_latest_data` wraps its
SELECT in try/except — the fetched rows on success, and after logging
`Error fetching data` an empty DataFrame on failure. The upstream outcome
is the argument. -/
def get_latest_data {α : Type} (result : Except String (List α)) : List α :=
  match result with
  | Except.ok rows => rows
  | Except.error _ => []

/-- Modelled from the spec: `DatabaseConnection.get_current_values` wraps
its SELECT TOP 1 in try/except — the fetched record on success, and after
logging `Error fetching current values` an absent record on failure. -/
def get_current_values {α : Type} (result : Except String α) : Option α :=
  match result with
  | Except.ok r => some r
  | Except.error _ => none

/-- Modelled from the spec: execution of the historical-range query of
`DatabaseConnection.get_historical_data` — the fetched rows on success, and
an empty DataFrame on failure. -/
def run_historical_data {α : Type} (result : Except String (List α)) : List α :=
  match result with
  | Except.ok rows => rows
  | Except.error _ => []

/-- C5: with `required = false` and an unreachable upstream store the
connect step returns a handle without raising; every query method given a
failing upstream outcome returns its empty or neutral result instead of
propagating the exception; and only the initial connection check with
`required = true` raises. -/
theorem optional_connection_degrades_gracefully :
    DatabaseConnection.init false false = Except.ok { is_connected := false } ∧
    (∀ e : String, @get_latest_data Nat (Except.error e) = []) ∧
    (∀ e : String, @get_current_values Nat (Except.error e) = none) ∧
    (∀ e : String, @run_historical_data Nat (Except.error e) = []) ∧
    DatabaseConnection.init true false = Except.error "Failed to connect to database" :=
  ⟨rfl, fun _ => rfl, fun _ => rfl, fun _ => rfl, rfl⟩

/-- C6: the statement text of the historical-range query is one constant,
identical for all caller-supplied bounds — the arguments are never
concatenated or interpolated into the SQL text — and the bounds travel only
in the parameter binding, under the names of the two placeholders. -/
theorem historical_query_parameterized (s1 e1 s2 e2 : String) :
    (get_historical_data s1 e1).text = (get_historical_data s2 e2).text ∧
    (get_historical_data s1 e1).text = historicalDataQueryText ∧
    (get_historical_data s1 e1).params = [("start_time", s1), ("end_time", e1)] :=
  ⟨rfl, rfl, rfl⟩

/-- Columns of one row of the `feed_parameters` table that carry the saved
settings, per the recovered CREATE TABLE statement: `feed_type`,
`toc_value`, `glucose_concentration`. -/
structure FeedParameters where
  feed_type : String
  toc_value : ℚ
  glucose_concentration : ℚ
deriving DecidableEq

/-- A full row of the `feed_parameters` table: the saved settings plus the
`timestamp` column, which the recovered schema declares as
`DATETIME DEFAULT CURRENT_TIMESTAMP`. -/
structure FeedParametersRow where
  params : FeedParameters
  timestamp : ℚ
deriving DecidableEq

/-- Modelled from the spec: `DatabaseConnection.save_feed_parameters`
executes the recovered INSERT `INSERT INTO feed_parameters (feed_type,
toc_value, glucose_concentration) VALUES (:feed_type, :toc, :glucose_conc)`,
appending one row whose timestamp column defaults to CURRENT_TIMESTAMP,
passed here as `now`. -/
def save_feed_parameters (table : List FeedParametersRow)
    (p : FeedParameters) (now : ℚ) : List FeedParametersRow :=
  table ++ [{ params := p, timestamp := now }]

/-- Modelled from the spec: `DatabaseConnection.get_feed_parameters`
executes the recovered SELECT `SELECT feed_type, toc_value,
glucose_concentration, timestamp FROM feed_parameters ORDER BY timestamp
DESC LIMIT 1` — a row of maximal timestamp, ties resolved toward the
earlier row. -/
def get_feed_parameters : List FeedParametersRow → Option FeedParametersRow
  | [] => none
  | r :: rest =>
    match get_feed_parameters rest with
    | none => some r
    | some b => if b.timestamp ≤ r.timestamp then some r else some b

/-- Schema validity of a saved feed-settings value, per the FeedSettings
JSON schema: the numeric fields are non-negative. -/
def FeedParameters.schemaValid (p : FeedParameters) : Prop :=
  0 ≤ p.toc_value ∧ 0 ≤ p.glucose_concentration

/-- C7: round-trip identity of the feed-settings persistence pair — saving
a schema-valid settings value and immediately reading back returns that
value (the saved columns unchanged, stamped with the insertion time), given
that the insertion timestamp is fresh, that is, strictly later than every
timestamp already in the table. -/
theorem feed_parameters_round_trip (table : List FeedParametersRow)
    (p : FeedParameters) (now : ℚ) (hv : p.schemaValid)
    (hfresh : ∀ r ∈ table, r.timestamp < now) :
    get_feed_parameters (save_feed_parameters table p now) =
      some { params := p, timestamp := now } := by
  induction table with
  | nil => rfl
  | cons r rest ih =>
    have hr : r.timestamp < now := hfresh r (by simp)
    have ih2 := ih (fun x hx => hfresh x (by simp [hx]))
    rw [show save_feed_parameters (r :: rest) p now =
          r :: save_feed_parameters rest p now from rfl]
    rw [show get_feed_parameters (r :: save_feed_parameters rest p now) =
          match get_feed_parameters (save_feed_parameters rest p now) with
          | none => some r
          | some b => if b.timestamp ≤ r.timestamp then some r else some b from rfl]
    rw [ih2]
    exact if_neg (not_le.mpr hr)

/-- C7 witness: the round trip evaluated on the empty table with a concrete
schema-valid settings value and a concrete insertion time. -/
theorem feed_parameters_round_trip_witness :
    FeedParameters.schemaValid
      { feed_type := "control", toc_value := 5, glucose_concentration := 10 } ∧
    get_feed_parameters (save_feed_parameters []
      { feed_type := "control", toc_value := 5, glucose_concentration := 10 } 1) =
      some { params := { feed_type := "control", toc_value := 5,
                         glucose_concentration := 10 }, timestamp := 1 } :=
  ⟨⟨by norm_num, by norm_num⟩,
   feed_parameters_round_trip []
     { feed_type := "control", toc_value := 5, glucose_concentration := 10 } 1
     ⟨by norm_num, by norm_num⟩ (by simp)⟩
